import Mathlib

/-!
Verification of the Connection Registry and Fan-out Core of the
nexus-learn-lms backend.

The registry lives in `ConnectionManager` in `src/main.py` (the unified
deployment entry point) and `src/nexus_learn_backend/app/main.py` (the
backend app).  The two files share an identical `connect`; their
`disconnect` differ in one point: the unified version wraps
`list.remove` in `try/except ValueError`, the backend version does not,
so there a remove of an absent websocket raises.  Both versions are
embedded below.  The per-connection receive loop `websocket_endpoint`
is embedded as a function over the list of transport events it observes.

Python dictionaries are modelled as association lists with unique keys:
`alookup` is `d[k]` / `d.get(k)`, `aupsert` is `d[k] = v`, `aerase` is
`del d[k]`.  Websocket handles are opaque and modelled as `Nat`; group
identifiers (`client_id`) are `String`; user identifiers are `Int`
(`user_id : int = None` becomes `Option Int`).
-/

/-- JSON values as produced by the transport's `receive_json` decoder. -/
inductive Json where
  | null
  | bool (b : Bool)
  | num (n : Int)
  | str (s : String)
  | arr (elems : List Json)
  | obj (fields : List (String × Json))

/-- Python's `data.get("type") == "ping"`: the comparison is true exactly
when the looked-up value is the string `ping` (absent keys give `None`,
which compares unequal to any string). -/
def isPing : Option Json → Bool
  | some (Json.str s) => s == "ping"
  | _ => false

/-- First-match lookup in an association list; Python dict keys are unique,
so this models both `d[k]` and `d.get(k)`. -/
def alookup {K V : Type} [DecidableEq K] (k : K) : List (K × V) → Option V
  | [] => none
  | (k2, v) :: rest => if k2 = k then some v else alookup k rest

/-- Replace the binding of `k` if present, else append; models Python dict
assignment `d[k] = v`. -/
def aupsert {K V : Type} [DecidableEq K] (k : K) (v : V) :
    List (K × V) → List (K × V)
  | [] => [(k, v)]
  | (k2, v2) :: rest =>
    if k2 = k then (k, v) :: rest else (k2, v2) :: aupsert k v rest

/-- Remove every binding of `k`; with unique keys this models `del d[k]`. -/
def aerase {K V : Type} [DecidableEq K] (k : K) :
    List (K × V) → List (K × V)
  | [] => []
  | (k2, v2) :: rest =>
    if k2 = k then aerase k rest else (k2, v2) :: aerase k rest

/-- The websocket connection registry (`ConnectionManager.__init__`):
`active_connections` maps a `client_id` (group identifier) to the list of
websockets registered under it; `user_connections` maps a `user_id` to its
most recently registered websocket. -/
structure ConnectionManager where
  active_connections : List (String × List Nat)
  user_connections : List (Int × Nat)
deriving DecidableEq, Repr

/-- The freshly constructed manager: both dicts empty. -/
def ConnectionManager.empty : ConnectionManager := ⟨[], []⟩

/-- Python truthiness of the optional integer `user_id`: `None` and `0` are
falsy, every other integer is truthy. -/
def truthyUser : Option Int → Bool
  | none => false
  | some u => u != 0

/-- `ConnectionManager.connect` (identical in both files): append the
websocket to `active_connections[client_id]`, creating the list when the
key is absent, and, when `user_id` is truthy, overwrite
`user_connections[user_id]` with this websocket. -/
def ConnectionManager.connect (m : ConnectionManager) (websocket : Nat)
    (client_id : String) (user_id : Option Int) : ConnectionManager :=
  let conns := (alookup client_id m.active_connections).getD []
  let m1 : ConnectionManager :=
    { m with active_connections :=
        aupsert client_id (conns ++ [websocket]) m.active_connections }
  if truthyUser user_id then
    { m1 with user_connections :=
        aupsert (user_id.getD 0) websocket m1.user_connections }
  else m1

/-- The final step shared by both `disconnect` versions:
`if user_id and user_id in self.user_connections: del ...` — when
`user_id` is truthy and has an entry, delete that entry (regardless of
which websocket the entry currently holds). -/
def userStep (m : ConnectionManager) (user_id : Option Int) :
    ConnectionManager :=
  if truthyUser user_id && (alookup (user_id.getD 0) m.user_connections).isSome then
    { m with user_connections := aerase (user_id.getD 0) m.user_connections }
  else m

/-- `ConnectionManager.disconnect` from `src/main.py` (unified version):
if the group key exists, `list.remove(websocket)` under
`try/except ValueError` (so an absent websocket is silently ignored),
deleting the group key when the list becomes empty; then the shared
`user_connections` deletion step. -/
def ConnectionManager.disconnect (m : ConnectionManager) (websocket : Nat)
    (client_id : String) (user_id : Option Int) : ConnectionManager :=
  let m1 : ConnectionManager :=
    match alookup client_id m.active_connections with
    | none => m
    | some conns =>
      if websocket ∈ conns then
        let conns2 := conns.erase websocket
        if conns2 = [] then
          { m with active_connections := aerase client_id m.active_connections }
        else
          { m with active_connections :=
              aupsert client_id conns2 m.active_connections }
      else m
  userStep m1 user_id

/-- `ConnectionManager.disconnect` from
`src/nexus_learn_backend/app/main.py`: same as the unified version but
without the `try/except`, so when the group key exists and the websocket
is not in its list, `list.remove` raises `ValueError`; the registry is
left unmodified and the `user_connections` step is never reached. -/
def ConnectionManager.disconnectBackend (m : ConnectionManager)
    (websocket : Nat) (client_id : String) (user_id : Option Int) :
    Except String ConnectionManager :=
  match alookup client_id m.active_connections with
  | none => Except.ok (userStep m user_id)
  | some conns =>
    if websocket ∈ conns then
      let conns2 := conns.erase websocket
      let m2 : ConnectionManager :=
        if conns2 = [] then
          { m with active_connections := aerase client_id m.active_connections }
        else
          { m with active_connections :=
              aupsert client_id conns2 m.active_connections }
      Except.ok (userStep m2 user_id)
    else Except.error "ValueError"

/-- One dispatch step of the `websocket_endpoint` receive loop (identical
in both files): an inbound object whose `type` field is the string
`ping` gets a pong reply carrying the current time string
(`datetime.utcnow().isoformat()` is abstracted as the `now` argument);
any other object is echoed back verbatim under the `data` field.
Inbound envelopes are JSON objects per the wire contract, modelled as
their field list. -/
def handleMessage (data : List (String × Json)) (now : String) : Json :=
  if isPing (alookup "type" data) then
    Json.obj [("type", Json.str "pong"), ("timestamp", Json.str now)]
  else
    Json.obj [("type", Json.str "echo"), ("data", Json.obj data)]

/-- One interaction observed by the `websocket_endpoint` loop:
`receive_json` yields a decoded object (whose reply send then succeeds
or raises), or raises `WebSocketDisconnect`, or raises a decode error on
malformed input. -/
inductive WsEvent where
  | message (data : List (String × Json)) (sendOk : Bool)
  | transportDisconnect
  | decodeFailure

/-- Observable outcome of the `websocket_endpoint` loop: the replies that
were sent, how many times `manager.disconnect` was called, whether the
loop exited at all (as opposed to still blocking on receive), and
whether the exit was an uncaught exception propagating out. -/
structure LoopOutcome where
  replies : List Json
  disconnectCalls : Nat
  exited : Bool
  crashed : Bool

/-- The `websocket_endpoint` loop over the list of transport events it
observes.  The `try` block catches only `WebSocketDisconnect`, where it
calls `manager.disconnect` once; a decode failure or a failed reply send
raises an exception of another class, which nothing catches, so the loop
exits without calling `disconnect`. -/
def websocket_endpoint_loop (now : String) : List WsEvent → LoopOutcome
  | [] => ⟨[], 0, false, false⟩
  | WsEvent.transportDisconnect :: _ => ⟨[], 1, true, false⟩
  | WsEvent.decodeFailure :: _ => ⟨[], 0, true, true⟩
  | WsEvent.message data sendOk :: rest =>
    if sendOk then
      let r := websocket_endpoint_loop now rest
      { r with replies := handleMessage data now :: r.replies }
    else ⟨[], 0, true, true⟩

/-- A registry operation: Register or Unregister with its arguments. -/
inductive RegistryOp where
  | register (websocket : Nat) (client_id : String) (user_id : Option Int)
  | unregister (websocket : Nat) (client_id : String) (user_id : Option Int)
deriving DecidableEq, Repr

/-- Apply one operation using the unified `disconnect`. -/
def applyOp (m : ConnectionManager) : RegistryOp → ConnectionManager
  | RegistryOp.register ws cid uid => m.connect ws cid uid
  | RegistryOp.unregister ws cid uid => m.disconnect ws cid uid

/-- Run a sequence of operations from the fresh manager (unified version). -/
def runOps (ops : List RegistryOp) : ConnectionManager :=
  ops.foldl applyOp ConnectionManager.empty

/-- Apply one operation using the backend `disconnect`; an uncaught
`ValueError` propagates out of the calling task and leaves the registry
state as it was. -/
def applyOpBackend (m : ConnectionManager) : RegistryOp → ConnectionManager
  | RegistryOp.register ws cid uid => m.connect ws cid uid
  | RegistryOp.unregister ws cid uid =>
    match m.disconnectBackend ws cid uid with
    | Except.ok m2 => m2
    | Except.error _ => m

/-- Run a sequence of operations from the fresh manager (backend version). -/
def runOpsBackend (ops : List RegistryOp) : ConnectionManager :=
  ops.foldl applyOpBackend ConnectionManager.empty

/-- Decidable form of the group invariant: no stored group entry has an
empty member list. -/
def noEmptyGroups (m : ConnectionManager) : Bool :=
  m.active_connections.all (fun p => !p.2.isEmpty)

/-- Modelled from the spec: the source `ConnectionManager` defines no
Broadcast operation, so it is modelled from the spec's section 4.1:
Broadcast takes a stable snapshot of `groups[group]`, attempts the send
to every connection in the snapshot even when some sends fail, and
collects the failures instead of raising.  The send capability is
abstracted as a predicate giving which recipients' sends succeed; the
result is the snapshot of attempted recipients together with the list of
recipients whose send failed. -/
def broadcast (m : ConnectionManager) (group : String) (sendOk : Nat → Bool) :
    List Nat × List Nat :=
  let snapshot := (alookup group m.active_connections).getD []
  (snapshot, snapshot.filter (fun c => !(sendOk c)))

/-! ## Association-list lemmas -/

theorem alookup_aupsert_self {K V : Type} [DecidableEq K] (k : K) (v : V)
    (l : List (K × V)) : alookup k (aupsert k v l) = some v := by
  induction l with
  | nil => simp [aupsert, alookup]
  | cons p rest ih =>
    obtain ⟨k2, v2⟩ := p
    by_cases h : k2 = k <;> simp [aupsert, alookup, h, ih]

theorem alookup_aupsert_ne {K V : Type} [DecidableEq K] {k k2 : K} (v : V)
    (l : List (K × V)) (h : k ≠ k2) :
    alookup k2 (aupsert k v l) = alookup k2 l := by
  induction l with
  | nil => simp [aupsert, alookup, h]
  | cons p rest ih =>
    obtain ⟨k3, v3⟩ := p
    by_cases h3 : k3 = k
    · subst h3
      simp [aupsert, alookup, h]
    · simp [aupsert, alookup, h3, ih]

theorem alookup_aerase_self {K V : Type} [DecidableEq K] (k : K)
    (l : List (K × V)) : alookup k (aerase k l) = none := by
  induction l with
  | nil => simp [aerase, alookup]
  | cons p rest ih =>
    obtain ⟨k2, v2⟩ := p
    by_cases h : k2 = k <;> simp [aerase, alookup, h, ih]

theorem all_aupsert {K V : Type} [DecidableEq K] (p : K × V → Bool) (k : K)
    (v : V) (l : List (K × V)) (hl : l.all p = true) (hv : p (k, v) = true) :
    (aupsert k v l).all p = true := by
  induction l with
  | nil => simp [aupsert, hv]
  | cons q rest ih =>
    obtain ⟨k2, v2⟩ := q
    simp only [List.all_cons, Bool.and_eq_true] at hl
    by_cases h : k2 = k
    · simp [aupsert, h, hv, hl.2]
    · simp [aupsert, h, hl.1, ih hl.2]

theorem all_aerase {K V : Type} [DecidableEq K] (p : K × V → Bool) (k : K)
    (l : List (K × V)) (hl : l.all p = true) : (aerase k l).all p = true := by
  induction l with
  | nil => simp [aerase]
  | cons q rest ih =>
    obtain ⟨k2, v2⟩ := q
    simp only [List.all_cons, Bool.and_eq_true] at hl
    by_cases h : k2 = k
    · simp [aerase, h, ih hl.2]
    · simp [aerase, h, hl.1, ih hl.2]

/-! ## Registry helper lemmas -/

theorem userStep_active (m : ConnectionManager) (uid : Option Int) :
    (userStep m uid).active_connections = m.active_connections := by
  unfold userStep
  split <;> rfl

theorem userStep_not_truthy (m : ConnectionManager) (uid : Option Int)
    (h : truthyUser uid = false) : userStep m uid = m := by
  unfold userStep
  simp [h]

theorem alookup_userStep_self (m : ConnectionManager) (u : Int) (hu : u ≠ 0) :
    alookup u (userStep m (some u)).user_connections = none := by
  have htu : truthyUser (some u) = true := by simp [truthyUser, hu]
  unfold userStep
  cases hs : (alookup u m.user_connections).isSome with
  | false =>
    have h0 : alookup u m.user_connections = none :=
      Option.not_isSome_iff_eq_none.mp (by simp [hs])
    simp [htu, hs, h0, Option.getD]
  | true =>
    simp [htu, hs, alookup_aerase_self, Option.getD]

theorem connect_appends (m : ConnectionManager) (ws : Nat) (cid : String)
    (uid : Option Int) :
    alookup cid (m.connect ws cid uid).active_connections =
      some ((alookup cid m.active_connections).getD [] ++ [ws]) := by
  unfold ConnectionManager.connect
  cases htu : truthyUser uid <;> simp [htu, alookup_aupsert_self]

theorem noEmptyGroups_userStep (m : ConnectionManager) (uid : Option Int) :
    noEmptyGroups (userStep m uid) = noEmptyGroups m := by
  simp [noEmptyGroups, userStep_active]

theorem noEmptyGroups_connect (m : ConnectionManager) (ws : Nat)
    (cid : String) (uid : Option Int) (h : noEmptyGroups m = true) :
    noEmptyGroups (m.connect ws cid uid) = true := by
  unfold ConnectionManager.connect
  cases htu : truthyUser uid <;>
    · simp only [noEmptyGroups] at h ⊢
      simp only [htu, Bool.false_eq_true, if_false, if_true]
      exact all_aupsert _ _ _ _ h (by simp)

theorem noEmptyGroups_disconnect (m : ConnectionManager) (ws : Nat)
    (cid : String) (uid : Option Int) (h : noEmptyGroups m = true) :
    noEmptyGroups (m.disconnect ws cid uid) = true := by
  unfold ConnectionManager.disconnect
  rw [noEmptyGroups_userStep]
  cases hl : alookup cid m.active_connections with
  | none => exact h
  | some conns =>
    by_cases hw : ws ∈ conns
    · by_cases he : conns.erase ws = []
      · simp only [hw, he, if_pos, if_true, noEmptyGroups] at h ⊢
        exact all_aerase _ _ _ h
      · simp only [hw, he, if_pos, if_true, if_neg, if_false, noEmptyGroups] at h ⊢
        refine all_aupsert _ _ _ _ h ?_
        simp [List.isEmpty_iff, he]
    · simp only [hw, if_neg, if_false]
      exact h

theorem disconnectBackend_ok (m : ConnectionManager) (ws : Nat) (cid : String)
    (uid : Option Int) (m2 : ConnectionManager)
    (hok : m.disconnectBackend ws cid uid = Except.ok m2) :
    m2 = m.disconnect ws cid uid := by
  unfold ConnectionManager.disconnectBackend at hok
  unfold ConnectionManager.disconnect
  split at hok
  · cases hok
    rfl
  · rename_i conns heq
    split at hok
    · rename_i hw
      cases hok
      rw [if_pos hw]
    · cases hok

theorem noEmptyGroups_applyOp (m : ConnectionManager) (op : RegistryOp)
    (h : noEmptyGroups m = true) : noEmptyGroups (applyOp m op) = true := by
  cases op with
  | register ws cid uid => exact noEmptyGroups_connect m ws cid uid h
  | unregister ws cid uid => exact noEmptyGroups_disconnect m ws cid uid h

theorem noEmptyGroups_applyOpBackend (m : ConnectionManager) (op : RegistryOp)
    (h : noEmptyGroups m = true) :
    noEmptyGroups (applyOpBackend m op) = true := by
  cases op with
  | register ws cid uid => exact noEmptyGroups_connect m ws cid uid h
  | unregister ws cid uid =>
    simp only [applyOpBackend]
    cases hok : m.disconnectBackend ws cid uid with
    | ok m2 =>
      rw [disconnectBackend_ok m ws cid uid m2 hok]
      exact noEmptyGroups_disconnect m ws cid uid h
    | error e => exact h

theorem noEmptyGroups_foldl (ops : List RegistryOp) (m : ConnectionManager)
    (h : noEmptyGroups m = true) :
    noEmptyGroups (ops.foldl applyOp m) = true := by
  induction ops generalizing m with
  | nil => exact h
  | cons op rest ih => exact ih _ (noEmptyGroups_applyOp m op h)

theorem noEmptyGroups_foldlBackend (ops : List RegistryOp)
    (m : ConnectionManager) (h : noEmptyGroups m = true) :
    noEmptyGroups (ops.foldl applyOpBackend m) = true := by
  induction ops generalizing m with
  | nil => exact h
  | cons op rest ih => exact ih _ (noEmptyGroups_applyOpBackend m op h)

theorem disconnect_user_not_truthy (m : ConnectionManager) (ws : Nat)
    (cid : String) (uid : Option Int) (h : truthyUser uid = false) :
    (m.disconnect ws cid uid).user_connections = m.user_connections := by
  unfold ConnectionManager.disconnect
  rw [userStep_not_truthy _ _ h]
  cases hl : alookup cid m.active_connections with
  | none => rfl
  | some conns =>
    by_cases hw : ws ∈ conns
    · by_cases he : conns.erase ws = [] <;> simp [hw, he]
    · simp [hw]

theorem isPing_eq_true_iff (v : Option Json) :
    isPing v = true ↔ v = some (Json.str "ping") := by
  cases v with
  | none => simp [isPing]
  | some j => cases j <;> simp [isPing]

/-! ## Claim theorems -/

/-- Claim C1 counterexample: register connection 1 and then connection 2
under user 7 in group g, so that byUser maps 7 to the later connection 2;
unregistering the earlier connection 1 with userID 7 nevertheless deletes
the entry — afterwards `user_connections` no longer maps 7 at all,
refuting the claim that the entry would survive and still map to
connection 2. -/
theorem unregister_earlier_connection_removes_later_byUser_entry :
    alookup (7 : Int)
      (((ConnectionManager.empty.connect 1 "g" (some 7)).connect 2 "g"
        (some 7)).user_connections) = some 2 ∧
    alookup (7 : Int)
      ((((ConnectionManager.empty.connect 1 "g" (some 7)).connect 2 "g"
        (some 7)).disconnect 1 "g" (some 7)).user_connections) = none :=
  ⟨rfl, rfl⟩

/-- Claim C1 amended: `ConnectionManager.disconnect` called with a truthy
userID u removes the `user_connections` entry for u unconditionally —
it never compares the stored connection with the one being unregistered —
so after unregistering the earlier connection, byUser no longer maps u,
even though the later-registered connection is still registered. -/
theorem disconnect_truthy_user_removes_byUser_entry (m : ConnectionManager)
    (ws : Nat) (cid : String) (u : Int) (hu : u ≠ 0) :
    alookup u (m.disconnect ws cid (some u)).user_connections = none := by
  unfold ConnectionManager.disconnect
  exact alookup_userStep_self _ u hu

theorem disconnect_truthy_user_removes_byUser_entry_witness :
    (7 : Int) ≠ 0 ∧
    alookup (7 : Int)
      ((⟨[("g", [1, 2])], [(7, 2)]⟩ : ConnectionManager).disconnect 1 "g"
        (some 7)).user_connections = none :=
  ⟨by decide, disconnect_truthy_user_removes_byUser_entry _ _ _ _ (by decide)⟩

/-- Claim C2 counterexample: registering websocket 5 into group g twice
leaves two entries for it in `active_connections` at key g — the
membership structure is a Python list grown by `append`, not a set. -/
theorem double_connect_creates_duplicate_entry :
    1 < ((alookup "g" ((ConnectionManager.empty.connect 5 "g"
      none).connect 5 "g" none).active_connections).getD []).count 5 := by
  decide

/-- Claim C2 amended: registering the same connection into the same group
twice appends it twice: `active_connections[g]` is a list and ends with
two copies of the websocket, so the group membership structure does not
have set semantics and duplicates do occur. -/
theorem double_connect_appends_twice (m : ConnectionManager) (ws : Nat)
    (cid : String) :
    alookup cid
        ((m.connect ws cid none).connect ws cid none).active_connections =
      some ((alookup cid m.active_connections).getD [] ++ [ws, ws]) := by
  rw [connect_appends, connect_appends]
  simp

/-- Claim C3 counterexample: with groups g holding only connection 2 and
byUser mapping 7 to connection 2, unregistering the absent connection 1
from g with userID 7 is not a no-op: the unified `disconnect` silently
deletes the byUser entry (user_connections becomes empty), and the
backend `disconnect` raises `ValueError`. -/
theorem disconnect_absent_connection_not_noop :
    ((⟨[("g", [2])], [(7, 2)]⟩ : ConnectionManager).disconnect 1 "g"
      (some 7)).user_connections = [] ∧
    (⟨[("g", [2])], [(7, 2)]⟩ : ConnectionManager).disconnectBackend 1 "g"
      (some 7) = Except.error "ValueError" :=
  ⟨rfl, rfl⟩

/-- Claim C3 amended: unregistering a connection that is not in
`active_connections[group]` (while the group key exists) leaves `groups`
unchanged in the unified version, and with no userID it is a full no-op
there; but it is not error-free and state-preserving in general: the
unified version still deletes `user_connections[userID]` when userID is
truthy and present, and the backend version raises `ValueError`. -/
theorem disconnect_absent_connection_behavior (m : ConnectionManager)
    (ws : Nat) (cid : String) (uid : Option Int) (conns : List Nat)
    (hl : alookup cid m.active_connections = some conns) (hw : ws ∉ conns) :
    (m.disconnect ws cid uid).active_connections = m.active_connections ∧
    m.disconnect ws cid none = m ∧
    m.disconnectBackend ws cid uid = Except.error "ValueError" := by
  refine ⟨?_, ?_, ?_⟩
  · unfold ConnectionManager.disconnect
    rw [userStep_active, hl]
    simp [hw]
  · unfold ConnectionManager.disconnect
    rw [userStep_not_truthy _ _ (by simp [truthyUser]), hl]
    simp [hw]
  · unfold ConnectionManager.disconnectBackend
    rw [hl]
    simp [hw]

theorem disconnect_absent_connection_behavior_witness :
    alookup "g" (⟨[("g", [2])], []⟩ : ConnectionManager).active_connections =
      some [2] ∧
    (1 : Nat) ∉ [2] ∧
    (((⟨[("g", [2])], []⟩ : ConnectionManager).disconnect 1 "g"
        (some 7)).active_connections =
      (⟨[("g", [2])], []⟩ : ConnectionManager).active_connections ∧
    (⟨[("g", [2])], []⟩ : ConnectionManager).disconnect 1 "g" none =
      (⟨[("g", [2])], []⟩ : ConnectionManager) ∧
    (⟨[("g", [2])], []⟩ : ConnectionManager).disconnectBackend 1 "g"
      (some 7) = Except.error "ValueError") :=
  ⟨rfl, by decide, disconnect_absent_connection_behavior _ _ _ _ _ rfl (by decide)⟩

/-- Claim C4: for every sequence of Register (`connect`) and Unregister
(`disconnect`) calls starting from the fresh manager, `active_connections`
never maps a group identifier to an empty list — the group key is removed
exactly when its last member is unregistered.  Proved for the unified
manager and for the backend manager (where an uncaught `ValueError` from
`disconnect` leaves the registry unchanged). -/
theorem groups_never_hold_empty_list (ops : List RegistryOp) :
    noEmptyGroups (runOps ops) = true ∧
    noEmptyGroups (runOpsBackend ops) = true :=
  ⟨noEmptyGroups_foldl ops ConnectionManager.empty rfl,
   noEmptyGroups_foldlBackend ops ConnectionManager.empty rfl⟩

/-- Claim C5 counterexample: `connect` called with user_id = 0 — a
present userID — leaves `user_connections` untouched: no byUser entry is
created for 0, refuting last-registered-wins for every present userID. -/
theorem connect_with_userID_zero_skips_byUser :
    (ConnectionManager.empty.connect 1 "g" (some 0)).user_connections = [] ∧
    alookup (0 : Int)
      (ConnectionManager.empty.connect 1 "g" (some 0)).user_connections =
        none :=
  ⟨rfl, rfl⟩

/-- Claim C5 amended: for every present nonzero (truthy) userID u,
`connect` sets `user_connections[u]` to the newly registered websocket,
overwriting any prior value, so after N registrations with the same
nonzero userID, byUser holds exactly the Nth-registered connection. -/
theorem connect_nonzero_user_overwrites_byUser (m : ConnectionManager)
    (ws : Nat) (cid : String) (u : Int) (hu : u ≠ 0) :
    alookup u (m.connect ws cid (some u)).user_connections = some ws := by
  unfold ConnectionManager.connect
  have htu : truthyUser (some u) = true := by simp [truthyUser, hu]
  simp [htu, alookup_aupsert_self, Option.getD]

theorem connect_nonzero_user_overwrites_byUser_witness :
    (7 : Int) ≠ 0 ∧
    alookup (7 : Int)
      ((⟨[], [(7, 1)]⟩ : ConnectionManager).connect 2 "g"
        (some 7)).user_connections = some 2 :=
  ⟨by decide, connect_nonzero_user_overwrites_byUser _ _ _ _ (by decide)⟩

/-- Claim C6 counterexample: when the first event the loop observes is a
decode failure on receive, the loop exits (the exception is not the
caught `WebSocketDisconnect`) and `manager.disconnect` is called zero
times, not exactly once. -/
theorem decode_failure_skips_disconnect :
    (websocket_endpoint_loop "2024-01-01T00:00:00"
      [WsEvent.decodeFailure]).exited = true ∧
    (websocket_endpoint_loop "2024-01-01T00:00:00"
      [WsEvent.decodeFailure]).disconnectCalls = 0 :=
  ⟨rfl, rfl⟩

/-- Claim C6 amended: `manager.disconnect` is called exactly once only on
the exit path caused by transport disconnect (`WebSocketDisconnect`, the
sole exception the loop catches); on a decode failure or a failed reply
send the exception propagates uncaught and `disconnect` is called zero
times.  Stated as: the number of disconnect calls is 1 on a clean exit
and 0 otherwise (crashed exit or still-open loop). -/
theorem disconnect_called_once_iff_clean_exit (now : String)
    (events : List WsEvent) :
    (websocket_endpoint_loop now events).disconnectCalls =
      cond ((websocket_endpoint_loop now events).exited &&
        !(websocket_endpoint_loop now events).crashed) 1 0 := by
  induction events with
  | nil => rfl
  | cons e rest ih =>
    cases e with
    | transportDisconnect => rfl
    | decodeFailure => rfl
    | message data sendOk =>
      cases sendOk with
      | false => rfl
      | true => simpa [websocket_endpoint_loop] using ih

/-- Claim C7: every inbound message whose `type` field equals the string
`ping` is answered with the pong envelope carrying the current UTC
timestamp string (the loop passes `datetime.utcnow().isoformat()`,
abstracted here as `now`). -/
theorem ping_message_gets_pong_reply (data : List (String × Json))
    (now : String)
    (h : alookup "type" data = some (Json.str "ping")) :
    handleMessage data now =
      Json.obj [("type", Json.str "pong"), ("timestamp", Json.str now)] := by
  unfold handleMessage
  rw [h]
  rfl

theorem ping_message_gets_pong_reply_witness :
    alookup "type" [("type", Json.str "ping")] = some (Json.str "ping") ∧
    handleMessage [("type", Json.str "ping")] "2024-01-01T00:00:00" =
      Json.obj [("type", Json.str "pong"),
        ("timestamp", Json.str "2024-01-01T00:00:00")] :=
  ⟨rfl, ping_message_gets_pong_reply _ _ rfl⟩

/-- Claim C8: every inbound object whose `type` field is not the string
`ping` (including objects with no `type` field) is answered with the echo
envelope embedding the original object verbatim under `data`. -/
theorem non_ping_message_gets_echo_reply (data : List (String × Json))
    (now : String)
    (h : alookup "type" data ≠ some (Json.str "ping")) :
    handleMessage data now =
      Json.obj [("type", Json.str "echo"), ("data", Json.obj data)] := by
  have hb : isPing (alookup "type" data) = false := by
    cases hb : isPing (alookup "type" data) with
    | false => rfl
    | true => exact absurd ((isPing_eq_true_iff _).mp hb) h
  unfold handleMessage
  simp [hb]

theorem non_ping_message_gets_echo_reply_witness :
    alookup "type" [("type", Json.str "foo"), ("x", Json.num 1)] ≠
      some (Json.str "ping") ∧
    handleMessage [("type", Json.str "foo"), ("x", Json.num 1)]
        "2024-01-01T00:00:00" =
      Json.obj [("type", Json.str "echo"),
        ("data", Json.obj [("type", Json.str "foo"), ("x", Json.num 1)])] :=
  ⟨by simp [alookup], non_ping_message_gets_echo_reply _ _ (by simp [alookup])⟩

/-- Claim C9 (Broadcast is modelled from the spec, since the source
registry provides no such operation): broadcasting to a group whose
snapshot is the three connections a, b, c, where the send to b fails and
the sends to a and c succeed, still attempts delivery to all of a, b, c
(the attempted list is the full snapshot) and reports exactly one
failure, namely b, instead of raising. -/
theorem broadcast_attempts_all_reports_failures (m : ConnectionManager)
    (g : String) (sendOk : Nat → Bool) (a b c : Nat)
    (hl : alookup g m.active_connections = some [a, b, c])
    (ha : sendOk a = true) (hb : sendOk b = false) (hc : sendOk c = true) :
    broadcast m g sendOk = ([a, b, c], [b]) := by
  unfold broadcast
  rw [hl]
  simp [List.filter_cons, ha, hb, hc]

theorem broadcast_attempts_all_reports_failures_witness :
    alookup "g"
      (⟨[("g", [1, 2, 3])], []⟩ : ConnectionManager).active_connections =
        some [1, 2, 3] ∧
    (fun n => n != 2) 1 = true ∧ (fun n => n != 2) 2 = false ∧
    (fun n => n != 2) 3 = true ∧
    broadcast (⟨[("g", [1, 2, 3])], []⟩ : ConnectionManager) "g"
      (fun n => n != 2) = ([1, 2, 3], [2]) :=
  ⟨rfl, rfl, rfl, rfl,
    broadcast_attempts_all_reports_failures _ _ _ _ _ _ rfl rfl rfl rfl⟩

/-- Claim C10: a userID equal to 0 is treated as if it were absent,
because both operations test the integer for truthiness: `connect` with
user_id = 0 leaves `user_connections` unchanged, and `disconnect` with
user_id = 0 never removes any byUser entry. -/
theorem userID_zero_treated_as_absent (m : ConnectionManager) (ws : Nat)
    (cid : String) :
    (m.connect ws cid (some 0)).user_connections = m.user_connections ∧
    (m.disconnect ws cid (some 0)).user_connections = m.user_connections := by
  constructor
  · unfold ConnectionManager.connect
    simp [truthyUser]
  · exact disconnect_user_not_truthy m ws cid (some 0) (by simp [truthyUser])
